import Mathlib

/-
Formal model of the LPL-MCP in-memory CRUD services:
`src/Repository/WebServer/web_server.py` (and its near-identical copy
`web_server_enhanced.py`), a user store backed by an insertion-ordered
dictionary keyed by an integer counter, and
`src/Repository/WebService/inventory_api.py`, list-backed inventory and user
stores.  Python dictionaries are modelled as insertion-ordered association
lists, timestamps (`datetime.utcnow()`) as an ambient `now : Nat` parameter,
UUIDs and datetimes as `Nat`, and `raise HTTPException` as `Except.error`.
-/

namespace LPLMCP

/-- Python slice `xs[a:b]` for non-negative bounds `a`, `b`. -/
def pySlice (a b : Nat) (xs : List α) : List α :=
  (xs.take b).drop a

/-- Error taxonomy of the services: `DuplicateKey` is the 400/409
"already registered / already exists" outcome, `NotFound` the 404 outcome. -/
inductive ApiError where
  | duplicateKey
  | notFound
deriving DecidableEq, Repr

/-- `k in d` on a Python dict modelled as an association list. -/
def dictContains (k : Nat) (d : List (Nat × α)) : Bool :=
  d.any (fun p => p.1 == k)

/-- `d[k]` (as an `Option`) on a Python dict modelled as an association list. -/
def dictLookup (k : Nat) (d : List (Nat × α)) : Option α :=
  (d.find? (fun p => p.1 == k)).map (·.2)

/-- `d[k] = v` on a Python dict: replaces in place if the key is present
(keeping its position in insertion order), otherwise appends at the end. -/
def dictSet (k : Nat) (v : α) (d : List (Nat × α)) : List (Nat × α) :=
  if dictContains k d then d.map (fun p => if p.1 == k then (k, v) else p)
  else d ++ [(k, v)]

/-- `del d[k]` on a Python dict modelled as an association list. -/
def dictErase (k : Nat) (d : List (Nat × α)) : List (Nat × α) :=
  d.filter (fun p => p.1 != k)

/-- `d.values()`, in insertion order. -/
def dictValues (d : List (Nat × α)) : List α :=
  d.map (·.2)

namespace WebServer

/-- `class User` of web_server.py: the candidate/stored record.  `id` is
`Optional[int]` (None until the store assigns it). -/
structure User where
  id : Option Nat
  name : String
  email : String
  age : Option Nat
  is_active : Bool
deriving DecidableEq, Repr

/-- `class UserResponse` of web_server.py: what the endpoints return.
`created_at` is the `datetime.utcnow()` at response-building time. -/
structure UserResponse where
  id : Nat
  name : String
  email : String
  age : Option Nat
  is_active : Bool
  created_at : Nat
deriving DecidableEq, Repr

/-- The module-level mutable state of web_server.py: `users_db` (a Python
dict from int id to User, insertion-ordered) and `user_counter`. -/
structure ServerState where
  users_db : List (Nat × User)
  user_counter : Nat
deriving DecidableEq, Repr

/-- The state at process start: `users_db = {}`, `user_counter = 1`. -/
def initialState : ServerState :=
  { users_db := [], user_counter := 1 }

/-- `POST /users` (`create_user`): rejects if any stored user has the
candidate's email, otherwise assigns `user.id = user_counter`, increments the
counter and stores the record.  Returns the outcome together with the state
after the call. -/
def create_user (now : Nat) (user : User) (s : ServerState) :
    Except ApiError UserResponse × ServerState :=
  if (dictValues s.users_db).any (fun existing => existing.email == user.email) then
    (Except.error ApiError.duplicateKey, s)
  else
    let assigned : User := { user with id := some s.user_counter }
    (Except.ok
      { id := s.user_counter, name := user.name, email := user.email,
        age := user.age, is_active := user.is_active, created_at := now },
     { users_db := dictSet s.user_counter assigned s.users_db,
       user_counter := s.user_counter + 1 })

/-- `GET /users/{user_id}` (`get_user`): 404 if the id is absent, otherwise a
response built from the stored record with `created_at` recomputed as "now"
(the timestamp-reset defect noted in the spec's Design Notes).  The `getD 0`
default is never hit on stored records, whose `id` field is always set. -/
def get_user (now : Nat) (user_id : Nat) (s : ServerState) :
    Except ApiError UserResponse :=
  match dictLookup user_id s.users_db with
  | none => Except.error ApiError.notFound
  | some user =>
      Except.ok
        { id := user.id.getD 0, name := user.name, email := user.email,
          age := user.age, is_active := user.is_active, created_at := now }

/-- The response built for one stored user by `get_users`. -/
def toResponse (now : Nat) (user : User) : UserResponse :=
  { id := user.id.getD 0, name := user.name, email := user.email,
    age := user.age, is_active := user.is_active, created_at := now }

/-- `GET /users` (`get_users`): `list(users_db.values())[skip : skip + limit]`,
each record rendered with `created_at` recomputed as "now". -/
def get_users (skip limit now : Nat) (s : ServerState) : List UserResponse :=
  (pySlice skip (skip + limit) (dictValues s.users_db)).map (toResponse now)

/-- `PUT /users/{user_id}` (`update_user`): 404 if the id is absent; if the
candidate's email differs from the stored one and some stored user with a
different `id` field has that email, rejects with `DuplicateKey`; otherwise
sets `user_update.id = user_id` and stores the candidate under the path id. -/
def update_user (now : Nat) (user_id : Nat) (user_update : User)
    (s : ServerState) : Except ApiError UserResponse × ServerState :=
  match dictLookup user_id s.users_db with
  | none => (Except.error ApiError.notFound, s)
  | some current =>
      if (user_update.email != current.email) &&
          (dictValues s.users_db).any
            (fun existing =>
              (existing.id != some user_id) && (existing.email == user_update.email)) then
        (Except.error ApiError.duplicateKey, s)
      else
        let replaced : User := { user_update with id := some user_id }
        (Except.ok
          { id := user_id, name := user_update.name, email := user_update.email,
            age := user_update.age, is_active := user_update.is_active,
            created_at := now },
         { s with users_db := dictSet user_id replaced s.users_db })

/-- `DELETE /users/{user_id}` (`delete_user`): 404 if the id is absent,
otherwise `del users_db[user_id]`. -/
def delete_user (user_id : Nat) (s : ServerState) :
    Except ApiError Unit × ServerState :=
  if dictContains user_id s.users_db then
    (Except.ok (), { s with users_db := dictErase user_id s.users_db })
  else
    (Except.error ApiError.notFound, s)

/-- The `/analytics` payload (`timestamp` omitted; `inactive_users` is a
Python int difference, modelled as `Int`). -/
structure Analytics where
  total_users : Nat
  active_users : Nat
  inactive_users : Int
deriving DecidableEq, Repr

/-- `GET /analytics` (`get_analytics`): `total_users = len(users_db)`,
`active_users = sum(1 for user in users_db.values() if user.is_active)`,
`inactive_users = total_users - active_users`. -/
def get_analytics (s : ServerState) : Analytics :=
  let total := (dictValues s.users_db).length
  let active := (dictValues s.users_db).countP (fun user => user.is_active)
  { total_users := total, active_users := active,
    inactive_users := (total : Int) - (active : Int) }

/-- The states reachable from process start through the mutating endpoints
of web_server.py (the read-only endpoints do not touch the state). -/
inductive Reachable : ServerState → Prop where
  | init : Reachable initialState
  | create (now : Nat) (u : User) (s : ServerState) :
      Reachable s → Reachable (create_user now u s).2
  | update (now user_id : Nat) (u : User) (s : ServerState) :
      Reachable s → Reachable (update_user now user_id u s).2
  | delete (user_id : Nat) (s : ServerState) :
      Reachable s → Reachable (delete_user user_id s).2

/-- Store invariant: every stored entry's key is below the counter, and its
record's `id` field equals its key. -/
def StoreInv (s : ServerState) : Prop :=
  (∀ p ∈ s.users_db, p.1 < s.user_counter) ∧
  (∀ p ∈ s.users_db, p.2.id = some p.1)

end WebServer

namespace InventoryApi

/-- `class Manufacturer` of inventory_api.py. -/
structure Manufacturer where
  name : String
  homePage : Option String
  phone : Option String
deriving DecidableEq, Repr

/-- `class InventoryItem` of inventory_api.py.  Its `id` is part of the
request model: the HTTP client may supply it, and pydantic's
`default_factory=uuid4` fills it in on the client-facing parse when absent;
`add_inventory` itself never generates or overwrites it.  UUIDs and datetimes
are modelled as `Nat`. -/
structure InventoryItem where
  id : Nat
  name : String
  releaseDate : Nat
  manufacturer : Manufacturer
deriving DecidableEq, Repr

/-- `class User` of inventory_api.py. -/
structure User where
  username : String
  email : String
deriving DecidableEq, Repr

/-- Characters of `s.lower()` (Python lowercase modelled by `Char.toLower`). -/
def lowerChars (s : String) : List Char :=
  s.toList.map Char.toLower

/-- Python's substring containment `needle in hay` on character lists. -/
def containsSub (needle : List Char) : List Char → Bool
  | [] => needle.isEmpty
  | c :: rest => needle.isPrefixOf (c :: rest) || containsSub needle rest

/-- `GET /inventory` (`search_inventory`): when `searchString` is truthy
(present and non-empty) keep the items whose lowercased name contains the
lowercased query, then slice `results[skip : skip + limit]`. -/
def search_inventory (searchString : Option String) (skip limit : Nat)
    (inventory_db : List InventoryItem) : List InventoryItem :=
  let results :=
    match searchString with
    | none => inventory_db
    | some q =>
        if q == "" then inventory_db
        else inventory_db.filter
          (fun item => containsSub (lowerChars q) (lowerChars item.name))
  pySlice skip (skip + limit) results

/-- `POST /inventory` (`add_inventory`): 409 if some stored item already has
the candidate's id, otherwise append the candidate unchanged. -/
def add_inventory (item : InventoryItem) (inventory_db : List InventoryItem) :
    Except ApiError Unit × List InventoryItem :=
  if inventory_db.any (fun inv => inv.id == item.id) then
    (Except.error ApiError.duplicateKey, inventory_db)
  else
    (Except.ok (), inventory_db ++ [item])

/-- `POST /users` (`add_user`): 400 if some stored user has the candidate's
email, otherwise append. -/
def add_user (user : User) (users_db : List User) :
    Except ApiError Unit × List User :=
  if users_db.any (fun u => u.email == user.email) then
    (Except.error ApiError.duplicateKey, users_db)
  else
    (Except.ok (), users_db ++ [user])

/-- `DELETE /users` (`delete_user`): unconditionally rebuilds `users_db`
keeping the users whose username and email both differ from `userId`, and
returns 204 — it never reports `NotFound`. -/
def delete_user (userId : String) (users_db : List User) :
    Except ApiError Unit × List User :=
  (Except.ok (),
   users_db.filter (fun u => (u.username != userId) && (u.email != userId)))

/-- `GET /users/{userId}` (`get_user_info`): first stored user whose username
or email equals `userId`, else 404. -/
def get_user_info (userId : String) (users_db : List User) :
    Except ApiError User :=
  match users_db.find? (fun u => (u.username == userId) || (u.email == userId)) with
  | some u => Except.ok u
  | none => Except.error ApiError.notFound

end InventoryApi

/-- A Python slice `xs[a:a+b]` is: drop the first `a`, take the next `b`. -/
theorem pySlice_eq_drop_take (a b : Nat) (xs : List α) :
    pySlice a (a + b) xs = (xs.drop a).take b := by
  unfold pySlice
  rw [List.drop_take, Nat.add_sub_cancel_left]

/-- Replacing the entry at a present key makes it findable with its new value. -/
theorem find_replace_self (k : Nat) (v : α) (d : List (Nat × α))
    (h : dictContains k d = true) :
    (d.map (fun p => if p.1 == k then (k, v) else p)).find? (fun p => p.1 == k)
      = some (k, v) := by
  induction d with
  | nil => simp [dictContains] at h
  | cons p rest ih =>
      by_cases hp : (p.1 == k) = true
      · simp only [List.map_cons, if_pos hp]
        exact List.find?_cons_of_pos _ (by simp)
      · have h' : dictContains k rest = true := by
          simp only [dictContains, List.any_cons, Bool.or_eq_true] at h
          exact h.resolve_left (by simpa using hp)
        simp only [List.map_cons, if_neg hp]
        rw [List.find?_cons_of_neg _ (by simpa using hp)]
        exact ih h'

/-- After `d[k] = v`, looking up `k` yields `v`. -/
theorem dictLookup_dictSet_self (k : Nat) (v : α) (d : List (Nat × α)) :
    dictLookup k (dictSet k v d) = some v := by
  unfold dictSet
  by_cases h : dictContains k d
  · rw [if_pos h]
    unfold dictLookup
    rw [find_replace_self k v d h]
    rfl
  · rw [if_neg h]
    unfold dictLookup
    rw [List.find?_append]
    have hnone : d.find? (fun p => p.1 == k) = none := by
      rw [List.find?_eq_none]
      intro x hx hpx
      exact h (by simp only [dictContains, List.any_eq_true]; exact ⟨x, hx, hpx⟩)
    rw [hnone]
    simp [List.find?]

/-- Filtering with a predicate incompatible with the search predicate leaves
nothing findable. -/
theorem find_filter_incompat (l : List α) (f g : α → Bool)
    (h : ∀ x, f x = true → g x = false) : (l.filter f).find? g = none := by
  induction l with
  | nil => rfl
  | cons a rest ih =>
      by_cases ha : f a = true
      · rw [List.filter_cons_of_pos ha, List.find?_cons_of_neg _ (by simp [h a ha])]
        exact ih
      · rw [List.filter_cons_of_neg ha]
        exact ih

/-- After `del d[k]`, looking up `k` fails. -/
theorem dictLookup_dictErase_self (k : Nat) (d : List (Nat × α)) :
    dictLookup k (dictErase k d) = none := by
  unfold dictLookup dictErase
  rw [find_filter_incompat]
  · rfl
  · intro p hp
    simpa using hp

/-- Every entry of `dictSet k v d` is the new entry or an old one. -/
theorem mem_dictSet (k : Nat) (v : α) (d : List (Nat × α)) (p : Nat × α)
    (hp : p ∈ dictSet k v d) : p = (k, v) ∨ p ∈ d := by
  unfold dictSet at hp
  by_cases h : dictContains k d
  · rw [if_pos h] at hp
    obtain ⟨q, hq, heq⟩ := List.mem_map.mp hp
    by_cases hqk : (q.1 == k) = true
    · left
      rw [← heq, if_pos hqk]
    · right
      rw [← heq, if_neg hqk]
      exact hq
  · rw [if_neg h] at hp
    rcases List.mem_append.mp hp with h1 | h2
    · right; exact h1
    · left; simpa using h2

/-- A successful dictionary lookup exhibits a stored entry. -/
theorem dictLookup_mem (k : Nat) (v : α) (d : List (Nat × α))
    (h : dictLookup k d = some v) : (k, v) ∈ d := by
  unfold dictLookup at h
  cases hf : d.find? (fun p => p.1 == k) with
  | none => rw [hf] at h; simp at h
  | some q =>
      rw [hf] at h
      have hm := List.mem_of_find?_eq_some hf
      have hk : q.1 = k := by simpa using List.find?_some hf
      have hv : q.2 = v := by simpa using h
      have : (k, v) = q := by
        cases q
        simp_all
      rw [this]
      exact hm

/-- Python's `"" in s` is always true: the empty needle is found everywhere. -/
theorem containsSub_nil (hay : List Char) :
    InventoryApi.containsSub [] hay = true := by
  cases hay <;> simp [InventoryApi.containsSub, List.isPrefixOf]

namespace WebServer

/-- Creating a user preserves the store invariant. -/
theorem storeInv_create (now : Nat) (u : User) (s : ServerState)
    (h : StoreInv s) : StoreInv (create_user now u s).2 := by
  unfold create_user
  by_cases hd :
      ((dictValues s.users_db).any (fun existing => existing.email == u.email)) = true
  · simpa [hd] using h
  · simp only [hd, Bool.false_eq_true, if_false]
    refine ⟨?_, ?_⟩
    · intro p hp
      rcases mem_dictSet _ _ _ _ hp with rfl | hp'
      · simp
      · exact Nat.lt_succ_of_lt (h.1 p hp')
    · intro p hp
      rcases mem_dictSet _ _ _ _ hp with rfl | hp'
      · rfl
      · exact h.2 p hp'

/-- Updating a user preserves the store invariant. -/
theorem storeInv_update (now user_id : Nat) (u : User) (s : ServerState)
    (h : StoreInv s) : StoreInv (update_user now user_id u s).2 := by
  unfold update_user
  cases hlk : dictLookup user_id s.users_db with
  | none => simpa using h
  | some current =>
      simp only []
      by_cases hb :
          ((u.email != current.email) &&
            (dictValues s.users_db).any
              (fun existing =>
                (existing.id != some user_id) && (existing.email == u.email))) = true
      · simpa [hb] using h
      · simp only [hb, Bool.false_eq_true, if_false]
        have hid : user_id < s.user_counter :=
          h.1 (user_id, current) (dictLookup_mem _ _ _ hlk)
        refine ⟨?_, ?_⟩
        · intro p hp
          rcases mem_dictSet _ _ _ _ hp with rfl | hp'
          · exact hid
          · exact h.1 p hp'
        · intro p hp
          rcases mem_dictSet _ _ _ _ hp with rfl | hp'
          · rfl
          · exact h.2 p hp'

/-- Deleting a user preserves the store invariant. -/
theorem storeInv_delete (user_id : Nat) (s : ServerState)
    (h : StoreInv s) : StoreInv (delete_user user_id s).2 := by
  unfold delete_user
  by_cases hc : dictContains user_id s.users_db = true
  · simp only [hc, if_true]
    refine ⟨?_, ?_⟩
    · intro p hp
      exact h.1 p (List.mem_of_mem_filter hp)
    · intro p hp
      exact h.2 p (List.mem_of_mem_filter hp)
  · simpa [hc] using h

/-- Every reachable server state satisfies the store invariant: stored keys
are below the counter and each stored record's `id` field equals its key. -/
theorem reachable_storeInv (s : ServerState) (h : Reachable s) : StoreInv s := by
  induction h with
  | init => exact ⟨by simp [initialState], by simp [initialState]⟩
  | create now u s _ ih => exact storeInv_create now u s ih
  | update now user_id u s _ ih => exact storeInv_update now user_id u s ih
  | delete user_id s _ ih => exact storeInv_delete user_id s ih

end WebServer

/-- C1: inserting a candidate whose email equals the email of some live
stored record fails with `DuplicateKey` and leaves the store unchanged (no
record is added), both for `create_user` of web_server.py and for `add_user`
of inventory_api.py. -/
theorem C1_duplicate_email_rejected (now : Nat) (u : WebServer.User)
    (s : WebServer.ServerState)
    (h1 : (dictValues s.users_db).any
            (fun existing => existing.email == u.email) = true)
    (v : InventoryApi.User) (users_db : List InventoryApi.User)
    (h2 : users_db.any (fun stored => stored.email == v.email) = true) :
    WebServer.create_user now u s = (Except.error ApiError.duplicateKey, s) ∧
    InventoryApi.add_user v users_db
      = (Except.error ApiError.duplicateKey, users_db) := by
  constructor
  · unfold WebServer.create_user
    rw [if_pos h1]
  · unfold InventoryApi.add_user
    rw [if_pos h2]

/-- Witness for C1 at a concrete store holding the conflicting email. -/
theorem C1_witness :
    WebServer.create_user 0
        { id := none, name := "Jane Doe", email := "john@x.com",
          age := none, is_active := true }
        { users_db :=
            [(1, { id := some 1, name := "John Doe", email := "john@x.com",
                   age := some 30, is_active := true })],
          user_counter := 2 }
      = (Except.error ApiError.duplicateKey,
         { users_db :=
             [(1, { id := some 1, name := "John Doe", email := "john@x.com",
                    age := some 30, is_active := true })],
           user_counter := 2 }) ∧
    InventoryApi.add_user { username := "other", email := "j@x.com" }
        [{ username := "johndoe", email := "j@x.com" }]
      = (Except.error ApiError.duplicateKey,
         [{ username := "johndoe", email := "j@x.com" }]) :=
  C1_duplicate_email_rejected 0 _ _ (by decide) _ _ (by decide)

/-- C2: inserting a candidate whose email is not already stored succeeds,
and `get_user` on the returned id succeeds and yields a record agreeing with
the candidate on every field except the store-assigned `id` and
`created_at`. -/
theorem C2_insert_then_get (now now2 : Nat) (u : WebServer.User)
    (s : WebServer.ServerState)
    (hdup : (dictValues s.users_db).any
              (fun existing => existing.email == u.email) = false) :
    ∃ resp s2, WebServer.create_user now u s = (Except.ok resp, s2) ∧
      WebServer.get_user now2 resp.id s2 =
        Except.ok { id := resp.id, name := u.name, email := u.email,
                    age := u.age, is_active := u.is_active, created_at := now2 } := by
  refine ⟨{ id := s.user_counter, name := u.name, email := u.email, age := u.age,
            is_active := u.is_active, created_at := now },
          { users_db := dictSet s.user_counter { u with id := some s.user_counter }
              s.users_db,
            user_counter := s.user_counter + 1 }, ?_, ?_⟩
  · unfold WebServer.create_user
    rw [if_neg (by simp [hdup])]
  · unfold WebServer.get_user
    rw [dictLookup_dictSet_self]
    rfl

/-- Witness for C2: inserting into the empty store and reading id 1 back. -/
theorem C2_witness :
    ∃ resp s2,
      WebServer.create_user 5
          { id := none, name := "John Doe", email := "john@x.com",
            age := some 30, is_active := true }
          WebServer.initialState
        = (Except.ok resp, s2) ∧
      WebServer.get_user 7 resp.id s2 =
        Except.ok { id := resp.id, name := "John Doe", email := "john@x.com",
                    age := some 30, is_active := true, created_at := 7 } :=
  C2_insert_then_get 5 7 _ _ (by decide)

/-- C7: `get_users` returns the stored records in insertion order, dropping
the first `skip` and taking at most `limit`; with `skip = 0` and `limit`
equal to the store size it returns everything, and with `skip` equal to the
store size it returns the empty sequence. -/
theorem C7_list_pagination (skip limit now : Nat) (s : WebServer.ServerState) :
    WebServer.get_users skip limit now s
      = (((dictValues s.users_db).drop skip).take limit).map
          (WebServer.toResponse now) ∧
    (WebServer.get_users skip limit now s).length ≤ limit ∧
    WebServer.get_users 0 (dictValues s.users_db).length now s
      = (dictValues s.users_db).map (WebServer.toResponse now) ∧
    WebServer.get_users (dictValues s.users_db).length 1 now s = [] ∧
    ((dictValues s.users_db).length - skip ≤ limit →
      WebServer.get_users skip limit now s
        = ((dictValues s.users_db).drop skip).map (WebServer.toResponse now)) := by
  have key : ∀ a b, WebServer.get_users a b now s
      = (((dictValues s.users_db).drop a).take b).map (WebServer.toResponse now) := by
    intro a b
    unfold WebServer.get_users
    rw [pySlice_eq_drop_take]
  refine ⟨key skip limit, ?_, ?_, ?_, ?_⟩
  · rw [key]
    simp only [List.length_map, List.length_take]
    exact Nat.min_le_left _ _
  · rw [key]
    simp
  · rw [key]
    simp
  · intro hrem
    rw [key]
    rw [List.take_of_length_le (by simpa using hrem)]

/-- Witness for C7 on a concrete two-record store with `skip = 1` and a
`limit` beyond the remaining count. -/
theorem C7_witness :
    WebServer.get_users 1 5 0
        { users_db :=
            [(1, { id := some 1, name := "John Doe", email := "john@x.com",
                   age := none, is_active := true }),
             (2, { id := some 2, name := "Jane Doe", email := "jane@x.com",
                   age := none, is_active := false })],
          user_counter := 3 }
      = ((dictValues
            ({ users_db :=
                 [(1, { id := some 1, name := "John Doe", email := "john@x.com",
                        age := none, is_active := true }),
                  (2, { id := some 2, name := "Jane Doe", email := "jane@x.com",
                        age := none, is_active := false })],
               user_counter := 3 } : WebServer.ServerState).users_db).drop 1).map
          (WebServer.toResponse 0) :=
  (C7_list_pagination 1 5 0
      { users_db :=
          [(1, { id := some 1, name := "John Doe", email := "john@x.com",
                 age := none, is_active := true }),
           (2, { id := some 2, name := "Jane Doe", email := "jane@x.com",
                 age := none, is_active := false })],
        user_counter := 3 }).2.2.2.2 (by decide)

/-- C10: `get_analytics` reports the number of live records as
`total_users`, the number of live records with `is_active` as
`active_users`, and their difference as `inactive_users`, so the counts are
consistent: actives plus inactives equal the total, and the active count
never exceeds the total. -/
theorem C10_analytics_consistent (s : WebServer.ServerState) :
    (WebServer.get_analytics s).total_users = (dictValues s.users_db).length ∧
    (WebServer.get_analytics s).active_users
      = (dictValues s.users_db).countP (fun user => user.is_active) ∧
    ((WebServer.get_analytics s).active_users : Int)
        + (WebServer.get_analytics s).inactive_users
      = ((WebServer.get_analytics s).total_users : Int) ∧
    (WebServer.get_analytics s).active_users
      ≤ (WebServer.get_analytics s).total_users ∧
    0 ≤ (WebServer.get_analytics s).inactive_users := by
  refine ⟨rfl, rfl, ?_, ?_, ?_⟩
  · simp only [WebServer.get_analytics]
    ring
  · exact List.countP_le_length _
  · simp only [WebServer.get_analytics]
    have := List.countP_le_length (fun user => user.is_active) (l := dictValues s.users_db)
    omega

/-- Witness for C10 on a concrete store with one active and one inactive
user. -/
theorem C10_witness :
    (WebServer.get_analytics
        { users_db :=
            [(1, { id := some 1, name := "John Doe", email := "john@x.com",
                   age := none, is_active := true }),
             (2, { id := some 2, name := "Jane Doe", email := "jane@x.com",
                   age := none, is_active := false })],
          user_counter := 3 }).total_users = 2 ∧
    (WebServer.get_analytics
        { users_db :=
            [(1, { id := some 1, name := "John Doe", email := "john@x.com",
                   age := none, is_active := true }),
             (2, { id := some 2, name := "Jane Doe", email := "jane@x.com",
                   age := none, is_active := false })],
          user_counter := 3 }).active_users = 1 ∧
    0 ≤ (WebServer.get_analytics
        { users_db :=
            [(1, { id := some 1, name := "John Doe", email := "john@x.com",
                   age := none, is_active := true }),
             (2, { id := some 2, name := "Jane Doe", email := "jane@x.com",
                   age := none, is_active := false })],
          user_counter := 3 }).inactive_users :=
  ⟨by decide, by decide,
   (C10_analytics_consistent
      { users_db :=
          [(1, { id := some 1, name := "John Doe", email := "john@x.com",
                 age := none, is_active := true }),
           (2, { id := some 2, name := "Jane Doe", email := "jane@x.com",
                 age := none, is_active := false })],
        user_counter := 3 }).2.2.2.2⟩

/-- C3: `update_user` returns `NotFound` for an absent id; with the id
present it returns `DuplicateKey` exactly when the candidate's email differs
from the stored record's email and some other live record (a different key,
using the store invariant that `id` fields match keys) holds that email;
updating with the record's own current email succeeds; and every successful
update stores the candidate under the path id with its `id` field set to it. -/
theorem C3_update_semantics (now user_id : Nat) (cand : WebServer.User)
    (s : WebServer.ServerState)
    (hwf : ∀ p ∈ s.users_db, p.2.id = some p.1) :
    (dictLookup user_id s.users_db = none →
        WebServer.update_user now user_id cand s
          = (Except.error ApiError.notFound, s)) ∧
    (∀ current, dictLookup user_id s.users_db = some current →
      (((WebServer.update_user now user_id cand s).1
          = Except.error ApiError.duplicateKey) ↔
        (cand.email ≠ current.email ∧
          ∃ p ∈ s.users_db, p.1 ≠ user_id ∧ p.2.email = cand.email)) ∧
      (cand.email = current.email →
        ∃ resp s2, WebServer.update_user now user_id cand s
          = (Except.ok resp, s2)) ∧
      (∀ resp s2,
        WebServer.update_user now user_id cand s = (Except.ok resp, s2) →
        resp.id = user_id ∧
        dictLookup user_id s2.users_db
          = some { cand with id := some user_id })) := by
  constructor
  · intro hnone
    unfold WebServer.update_user
    rw [hnone]
  · intro current hsome
    have hcond :
        ((cand.email != current.email) &&
          (dictValues s.users_db).any
            (fun existing =>
              (existing.id != some user_id) && (existing.email == cand.email))) = true
        ↔ (cand.email ≠ current.email ∧
            ∃ p ∈ s.users_db, p.1 ≠ user_id ∧ p.2.email = cand.email) := by
      rw [Bool.and_eq_true, bne_iff_ne, List.any_eq_true]
      constructor
      · rintro ⟨hne, x, hx, hpx⟩
        refine ⟨hne, ?_⟩
        obtain ⟨p, hp, rfl⟩ := List.mem_map.mp hx
        rw [Bool.and_eq_true, bne_iff_ne, beq_iff_eq] at hpx
        refine ⟨p, hp, ?_, hpx.2⟩
        intro hk
        exact hpx.1 (by rw [hwf p hp, hk])
      · rintro ⟨hne, p, hp, hk, hem⟩
        refine ⟨hne, p.2, List.mem_map.mpr ⟨p, hp, rfl⟩, ?_⟩
        rw [Bool.and_eq_true, bne_iff_ne, beq_iff_eq]
        refine ⟨?_, hem⟩
        rw [hwf p hp]
        intro habs
        exact hk (Option.some.injEq _ _ ▸ habs)
    have heq : WebServer.update_user now user_id cand s =
        (if (cand.email != current.email) &&
            (dictValues s.users_db).any
              (fun existing =>
                (existing.id != some user_id) && (existing.email == cand.email)) then
          (Except.error ApiError.duplicateKey, s)
        else
          (Except.ok
            { id := user_id, name := cand.name, email := cand.email,
              age := cand.age, is_active := cand.is_active, created_at := now },
           { s with users_db :=
               dictSet user_id { cand with id := some user_id } s.users_db })) := by
      unfold WebServer.update_user
      rw [hsome]
    refine ⟨?_, ?_, ?_⟩
    · rw [heq]
      by_cases hb :
          ((cand.email != current.email) &&
            (dictValues s.users_db).any
              (fun existing =>
                (existing.id != some user_id) && (existing.email == cand.email))) = true
      · rw [if_pos hb]
        exact iff_of_true rfl (hcond.mp hb)
      · rw [if_neg hb]
        constructor
        · intro habs
          simp at habs
        · intro hP
          exact absurd (hcond.mpr hP) hb
    · intro hsame
      refine ⟨{ id := user_id, name := cand.name, email := cand.email,
                age := cand.age, is_active := cand.is_active, created_at := now },
              { s with users_db :=
                  dictSet user_id { cand with id := some user_id } s.users_db },
              ?_⟩
      rw [heq, if_neg (by simp [hsame])]
    · intro resp s2 hok
      rw [heq] at hok
      by_cases hb :
          ((cand.email != current.email) &&
            (dictValues s.users_db).any
              (fun existing =>
                (existing.id != some user_id) && (existing.email == cand.email))) = true
      · rw [if_pos hb] at hok
        simp at hok
      · rw [if_neg hb] at hok
        simp only [Prod.mk.injEq, Except.ok.injEq] at hok
        obtain ⟨hresp, hs2⟩ := hok
        subst hresp hs2
        exact ⟨rfl, dictLookup_dictSet_self _ _ _⟩

/-- Witness for C3: updating an absent id on a concrete well-formed store
returns `NotFound`. -/
theorem C3_witness :
    WebServer.update_user 0 2
        { id := none, name := "New Name", email := "new@x.com",
          age := none, is_active := true }
        { users_db := [(1, { id := some 1, name := "John Doe",
                             email := "john@x.com", age := none,
                             is_active := true })],
          user_counter := 2 }
      = (Except.error ApiError.notFound,
         { users_db := [(1, { id := some 1, name := "John Doe",
                              email := "john@x.com", age := none,
                              is_active := true })],
           user_counter := 2 }) :=
  (C3_update_semantics 0 2 _ _ (by decide)).1 (by decide)

/-- C4 as stated is refuted by the inventory API: deleting with a `userId`
matching no live record still returns 204 `Ok` (an unconditional filter),
where the claim requires `NotFound`. -/
theorem C4_counterexample :
    InventoryApi.delete_user "ghost" [] = (Except.ok (), []) := rfl

/-- C4 (amended): web_server.py's `delete_user` returns `NotFound` for an
absent id, and after deleting a present id, `get_user` on it yields
`NotFound`; the inventory API's user delete instead filters by
username-or-email match and always returns `Ok`, never `NotFound` — though a
subsequent `get_user_info` on the same key does yield `NotFound`. -/
theorem C4_delete_amended (user_id now : Nat) (s : WebServer.ServerState)
    (userId : String) (users_db : List InventoryApi.User) :
    (dictContains user_id s.users_db = false →
        WebServer.delete_user user_id s
          = (Except.error ApiError.notFound, s)) ∧
    (dictContains user_id s.users_db = true →
        WebServer.get_user now user_id (WebServer.delete_user user_id s).2
          = Except.error ApiError.notFound) ∧
    ((InventoryApi.delete_user userId users_db).1 = Except.ok ()) ∧
    (InventoryApi.get_user_info userId
        (InventoryApi.delete_user userId users_db).2
      = Except.error ApiError.notFound) := by
  refine ⟨?_, ?_, rfl, ?_⟩
  · intro h
    unfold WebServer.delete_user
    rw [if_neg (by simp [h])]
  · intro h
    have h2 : (WebServer.delete_user user_id s).2
        = { s with users_db := dictErase user_id s.users_db } := by
      unfold WebServer.delete_user
      rw [if_pos h]
    rw [h2]
    unfold WebServer.get_user
    rw [dictLookup_dictErase_self]
  · have hfind : (users_db.filter
        (fun u => (u.username != userId) && (u.email != userId))).find?
          (fun u => (u.username == userId) || (u.email == userId)) = none := by
      apply find_filter_incompat
      intro u hu
      simp only [Bool.and_eq_true, bne_iff_ne] at hu
      simp [hu.1, hu.2]
    unfold InventoryApi.get_user_info InventoryApi.delete_user
    rw [hfind]

/-- Witness for C4 (amended) at concrete stores. -/
theorem C4_witness :
    WebServer.delete_user 7 WebServer.initialState
      = (Except.error ApiError.notFound, WebServer.initialState) ∧
    WebServer.get_user 0 1
        (WebServer.delete_user 1
          { users_db := [(1, { id := some 1, name := "John Doe",
                               email := "john@x.com", age := none,
                               is_active := true })],
            user_counter := 2 }).2
      = Except.error ApiError.notFound ∧
    (InventoryApi.delete_user "john"
        [{ username := "john", email := "j@x.com" }]).1 = Except.ok () ∧
    InventoryApi.get_user_info "john"
        (InventoryApi.delete_user "john"
          [{ username := "john", email := "j@x.com" }]).2
      = Except.error ApiError.notFound :=
  ⟨(C4_delete_amended 7 0 WebServer.initialState "x" []).1 (by decide),
   (C4_delete_amended 1 0 _ "x" []).2.1 (by decide),
   (C4_delete_amended 0 0 WebServer.initialState "john"
      [{ username := "john", email := "j@x.com" }]).2.2.1,
   (C4_delete_amended 0 0 WebServer.initialState "john"
      [{ username := "john", email := "j@x.com" }]).2.2.2⟩

/-- C5: the user store's counter starts at 1; every successful insert
assigns the current counter value as the new record's id and bumps the
counter by one; in every reachable state all live keys are below the
counter (so a deleted id, being below the counter, is never handed out
again); the counter never decreases under any operation; and the first
insert into the empty initial store is assigned id 1. -/
theorem C5_counter_assignment :
    WebServer.initialState.user_counter = 1 ∧
    (∀ now u s resp s2,
        WebServer.create_user now u s = (Except.ok resp, s2) →
        resp.id = s.user_counter ∧ s2.user_counter = s.user_counter + 1) ∧
    (∀ s, WebServer.Reachable s → ∀ p ∈ s.users_db, p.1 < s.user_counter) ∧
    (∀ now u s,
        s.user_counter ≤ (WebServer.create_user now u s).2.user_counter) ∧
    (∀ now user_id u s,
        (WebServer.update_user now user_id u s).2.user_counter
          = s.user_counter) ∧
    (∀ user_id s,
        (WebServer.delete_user user_id s).2.user_counter = s.user_counter) ∧
    (∀ now u, ∃ resp s2,
        WebServer.create_user now u WebServer.initialState
          = (Except.ok resp, s2) ∧ resp.id = 1) := by
  refine ⟨rfl, ?_, ?_, ?_, ?_, ?_, ?_⟩
  · intro now u s resp s2 h
    unfold WebServer.create_user at h
    by_cases hd :
        ((dictValues s.users_db).any
          (fun existing => existing.email == u.email)) = true
    · rw [if_pos hd] at h
      simp at h
    · rw [if_neg hd] at h
      simp only [Prod.mk.injEq, Except.ok.injEq] at h
      obtain ⟨h1, h2⟩ := h
      subst h1 h2
      exact ⟨rfl, rfl⟩
  · intro s hs
    exact (WebServer.reachable_storeInv s hs).1
  · intro now u s
    unfold WebServer.create_user
    by_cases hd :
        ((dictValues s.users_db).any
          (fun existing => existing.email == u.email)) = true
    · rw [if_pos hd]
    · rw [if_neg hd]
      exact Nat.le_succ _
  · intro now user_id u s
    unfold WebServer.update_user
    cases hlk : dictLookup user_id s.users_db with
    | none => rfl
    | some current =>
        by_cases hb :
            ((u.email != current.email) &&
              (dictValues s.users_db).any
                (fun existing =>
                  (existing.id != some user_id)
                    && (existing.email == u.email))) = true
        · simp [hb]
        · simp [hb]
  · intro user_id s
    unfold WebServer.delete_user
    by_cases hc : dictContains user_id s.users_db = true
    · rw [if_pos hc]
    · rw [if_neg hc]
  · intro now u
    exact ⟨_, _, rfl, rfl⟩

/-- Witness for C5: the insert of the testable-properties scenario, applied
to the initial store, is assigned id 1 and bumps the counter to 2. -/
theorem C5_witness :
    WebServer.initialState.user_counter = 1 ∧
    (∃ resp s2,
        WebServer.create_user 3
            { id := none, name := "John Doe", email := "john@x.com",
              age := some 30, is_active := true }
            WebServer.initialState
          = (Except.ok resp, s2) ∧ resp.id = 1) ∧
    ∀ p ∈ WebServer.initialState.users_db,
        p.1 < WebServer.initialState.user_counter :=
  ⟨C5_counter_assignment.1,
   C5_counter_assignment.2.2.2.2.2.2 3
     { id := none, name := "John Doe", email := "john@x.com",
       age := some 30, is_active := true },
   C5_counter_assignment.2.2.1 WebServer.initialState WebServer.Reachable.init⟩

/-- C6 as stated is refuted by the inventory store: `add_inventory` stores
the candidate's own id verbatim (here the caller-chosen 999) — the store
has no id-assignment step at all for inventory items. -/
theorem C6_counterexample :
    (InventoryApi.add_inventory
        { id := 999, name := "Widget Adapter", releaseDate := 0,
          manufacturer := { name := "ACME Corporation", homePage := none,
                            phone := none } } []).2
      = [{ id := 999, name := "Widget Adapter", releaseDate := 0,
           manufacturer := { name := "ACME Corporation", homePage := none,
                             phone := none } }] := rfl

/-- C6 (amended): in every reachable user-store state each live record's id
was issued by the store's counter (its `id` field equals its key, which is
below the counter), and a successful `create_user` assigns the counter value
regardless of the candidate's own `id` field; the inventory store, by
contrast, appends a successfully added candidate unchanged, its
caller-supplied (or client-generated) id included. -/
theorem C6_id_provenance :
    (∀ s, WebServer.Reachable s →
        ∀ p ∈ s.users_db, p.2.id = some p.1 ∧ p.1 < s.user_counter) ∧
    (∀ now u s resp s2,
        WebServer.create_user now u s = (Except.ok resp, s2) →
        resp.id = s.user_counter) ∧
    (∀ item inventory_db,
        (InventoryApi.add_inventory item inventory_db).1 = Except.ok () →
        (InventoryApi.add_inventory item inventory_db).2
          = inventory_db ++ [item]) := by
  refine ⟨?_, ?_, ?_⟩
  · intro s hs p hp
    have h := WebServer.reachable_storeInv s hs
    exact ⟨h.2 p hp, h.1 p hp⟩
  · intro now u s resp s2 h
    unfold WebServer.create_user at h
    by_cases hd :
        ((dictValues s.users_db).any
          (fun existing => existing.email == u.email)) = true
    · rw [if_pos hd] at h
      simp at h
    · rw [if_neg hd] at h
      simp only [Prod.mk.injEq, Except.ok.injEq] at h
      rw [← h.1]
  · intro item inventory_db h
    unfold InventoryApi.add_inventory at h ⊢
    by_cases hd : (inventory_db.any (fun inv => inv.id == item.id)) = true
    · rw [if_pos hd] at h
      simp at h
    · rw [if_neg hd]

/-- Witness for C6 (amended): the initial store is reachable, and a concrete
successful inventory add appends the candidate unchanged. -/
theorem C6_witness :
    (∀ p ∈ WebServer.initialState.users_db,
        p.2.id = some p.1 ∧ p.1 < WebServer.initialState.user_counter) ∧
    (InventoryApi.add_inventory
        { id := 7, name := "Gadget", releaseDate := 1,
          manufacturer := { name := "ACME", homePage := none,
                            phone := none } } []).2
      = [] ++ [{ id := 7, name := "Gadget", releaseDate := 1,
                 manufacturer := { name := "ACME", homePage := none,
                                   phone := none } }] :=
  ⟨C6_id_provenance.1 WebServer.initialState WebServer.Reachable.init,
   C6_id_provenance.2.2
     { id := 7, name := "Gadget", releaseDate := 1,
       manufacturer := { name := "ACME", homePage := none, phone := none } }
     [] rfl⟩

/-- C8: for any query string and pagination bounds in the stipulated range,
`search_inventory` equals the case-insensitive substring filter over the
item names (in stored order) followed by dropping `skip` and taking `limit`
— pagination is applied to the filtered sequence, never the unfiltered one. -/
theorem C8_search_filters_then_paginates (q : String) (skip limit : Nat)
    (inventory_db : List InventoryApi.InventoryItem)
    (h1 : 1 ≤ limit) (h2 : limit ≤ 1000) :
    InventoryApi.search_inventory (some q) skip limit inventory_db
      = ((inventory_db.filter
            (fun item =>
              InventoryApi.containsSub (InventoryApi.lowerChars q)
                (InventoryApi.lowerChars item.name))).drop skip).take limit := by
  have hred : InventoryApi.search_inventory (some q) skip limit inventory_db
      = pySlice skip (skip + limit)
          (if (q == "") = true then inventory_db
           else inventory_db.filter
             (fun item =>
               InventoryApi.containsSub (InventoryApi.lowerChars q)
                 (InventoryApi.lowerChars item.name))) := rfl
  rw [hred, pySlice_eq_drop_take]
  by_cases hq : (q == "") = true
  · rw [if_pos hq]
    have hq2 : q = "" := by simpa using hq
    subst hq2
    have hfil : inventory_db.filter
        (fun item =>
          InventoryApi.containsSub (InventoryApi.lowerChars "")
            (InventoryApi.lowerChars item.name)) = inventory_db := by
      rw [List.filter_eq_self]
      intro a _
      exact containsSub_nil _
    rw [hfil]
  · rw [if_neg hq]

/-- Witness for C8 at a concrete query and store: "wid" matches
"Widget Adapter" case-insensitively. -/
theorem C8_witness :
    InventoryApi.search_inventory (some "Wid") 0 50
        [{ id := 1, name := "Widget Adapter", releaseDate := 0,
           manufacturer := { name := "ACME", homePage := none,
                             phone := none } }]
      = (([{ id := 1, name := "Widget Adapter", releaseDate := 0,
             manufacturer := { name := "ACME", homePage := none,
                               phone := none } }].filter
            (fun item =>
              InventoryApi.containsSub (InventoryApi.lowerChars "Wid")
                (InventoryApi.lowerChars item.name))).drop 0).take 50 :=
  C8_search_filters_then_paginates "Wid" 0 50 _ (by decide) (by decide)

/-- C9: whenever a mutating operation of either service returns an error,
the store it operates on (mapping and counter alike) is returned exactly as
it was — no partial mutation is observable. -/
theorem C9_error_atomicity (now user_id : Nat) (u cand : WebServer.User)
    (s : WebServer.ServerState) (item : InventoryApi.InventoryItem)
    (inventory_db : List InventoryApi.InventoryItem)
    (v : InventoryApi.User) (users_db : List InventoryApi.User) :
    (∀ e, (WebServer.create_user now u s).1 = Except.error e →
        (WebServer.create_user now u s).2 = s) ∧
    (∀ e, (WebServer.update_user now user_id cand s).1 = Except.error e →
        (WebServer.update_user now user_id cand s).2 = s) ∧
    (∀ e, (WebServer.delete_user user_id s).1 = Except.error e →
        (WebServer.delete_user user_id s).2 = s) ∧
    (∀ e, (InventoryApi.add_inventory item inventory_db).1 = Except.error e →
        (InventoryApi.add_inventory item inventory_db).2 = inventory_db) ∧
    (∀ e, (InventoryApi.add_user v users_db).1 = Except.error e →
        (InventoryApi.add_user v users_db).2 = users_db) := by
  refine ⟨?_, ?_, ?_, ?_, ?_⟩
  · intro e h
    unfold WebServer.create_user at h ⊢
    by_cases hd :
        ((dictValues s.users_db).any
          (fun existing => existing.email == u.email)) = true
    · rw [if_pos hd]
    · rw [if_neg hd] at h
      simp at h
  · intro e h
    cases hlk : dictLookup user_id s.users_db with
    | none =>
        unfold WebServer.update_user
        rw [hlk]
    | some current =>
        have heq2 : WebServer.update_user now user_id cand s =
            (if (cand.email != current.email) &&
                (dictValues s.users_db).any
                  (fun existing =>
                    (existing.id != some user_id)
                      && (existing.email == cand.email)) then
              (Except.error ApiError.duplicateKey, s)
            else
              (Except.ok
                { id := user_id, name := cand.name, email := cand.email,
                  age := cand.age, is_active := cand.is_active,
                  created_at := now },
               { s with users_db :=
                   dictSet user_id { cand with id := some user_id } s.users_db })) := by
          unfold WebServer.update_user
          rw [hlk]
        rw [heq2] at h ⊢
        by_cases hb :
            ((cand.email != current.email) &&
              (dictValues s.users_db).any
                (fun existing =>
                  (existing.id != some user_id)
                    && (existing.email == cand.email))) = true
        · rw [if_pos hb]
        · rw [if_neg hb] at h
          simp at h
  · intro e h
    unfold WebServer.delete_user at h ⊢
    by_cases hc : dictContains user_id s.users_db = true
    · rw [if_pos hc] at h
      simp at h
    · rw [if_neg hc]
  · intro e h
    unfold InventoryApi.add_inventory at h ⊢
    by_cases hd : (inventory_db.any (fun inv => inv.id == item.id)) = true
    · rw [if_pos hd]
    · rw [if_neg hd] at h
      simp at h
  · intro e h
    unfold InventoryApi.add_user at h ⊢
    by_cases hd : (users_db.any (fun stored => stored.email == v.email)) = true
    · rw [if_pos hd]
    · rw [if_neg hd] at h
      simp at h

/-- Witness for C9: a duplicate-email create and a not-found delete both
leave their concrete stores untouched. -/
theorem C9_witness :
    (WebServer.create_user 0
        { id := none, name := "Jane Doe", email := "john@x.com",
          age := none, is_active := true }
        { users_db := [(1, { id := some 1, name := "John Doe",
                             email := "john@x.com", age := none,
                             is_active := true })],
          user_counter := 2 }).2
      = { users_db := [(1, { id := some 1, name := "John Doe",
                             email := "john@x.com", age := none,
                             is_active := true })],
          user_counter := 2 } ∧
    (WebServer.delete_user 5 WebServer.initialState).2
      = WebServer.initialState :=
  ⟨(C9_error_atomicity 0 0
      { id := none, name := "Jane Doe", email := "john@x.com",
        age := none, is_active := true }
      { id := none, name := "Jane Doe", email := "john@x.com",
        age := none, is_active := true }
      { users_db := [(1, { id := some 1, name := "John Doe",
                           email := "john@x.com", age := none,
                           is_active := true })],
        user_counter := 2 }
      { id := 0, name := "x", releaseDate := 0,
        manufacturer := { name := "m", homePage := none, phone := none } }
      [] { username := "a", email := "b" } []).1
      ApiError.duplicateKey rfl,
   (C9_error_atomicity 0 5
      { id := none, name := "Jane Doe", email := "john@x.com",
        age := none, is_active := true }
      { id := none, name := "Jane Doe", email := "john@x.com",
        age := none, is_active := true }
      WebServer.initialState
      { id := 0, name := "x", releaseDate := 0,
        manufacturer := { name := "m", homePage := none, phone := none } }
      [] { username := "a", email := "b" } []).2.2.1
      ApiError.notFound rfl⟩

end LPLMCP
